import Mathlib

/-!
Verification of the PDF-to-Json browser application.

The development shallowly embeds the program's data model and the logic of
its five source files:

* `src/types.ts` — the data model (`PdfParseResult` and its parts);
* `src/services/localPdfService.ts` — `parsePdfLocal`, the local raw-text
  extraction branch;
* the Gemini service (`parsePdfWithGemini`) — the remote structured
  extraction branch;
* `src/App.tsx` — `handleFileSelected`, which runs both branches in
  parallel and merges their results;
* the `FileUpload` component — MIME-type gating of the upload triggers;
* `src/components/JsonViewer.tsx` — the transactions tab, the amount cell
  rendering and the CSV export.

Effectful inputs (the pdf.js calls, the remote API call, `JSON.parse`) are
modelled as `Except`-valued inputs: `Except.error e` stands for the
corresponding JavaScript operation throwing with message `e`.
JavaScript numbers are modelled as rationals (`ℚ`); all numeric values the
verified properties touch are exact, so no floating-point rounding is
involved.
-/

namespace PdfToJson

/-! ## Data model (`src/types.ts`) -/

/-- Mirrors `ParsedElement` of `src/types.ts`: a classified structural
element of a page. -/
structure ParsedElement where
  type : String
  content : String
deriving DecidableEq

/-- Mirrors `ParsedPage` of `src/types.ts`. -/
structure ParsedPage where
  pageNumber : Int
  rawText : String
  structuredElements : List ParsedElement
deriving DecidableEq

/-- Mirrors `ParsedMetadata` of `src/types.ts`. -/
structure ParsedMetadata where
  title : String
  author : String
  summary : String
  language : String
  topic : String
deriving DecidableEq

/-- Mirrors `Transaction` of `src/types.ts`.  The JavaScript `number`
amount is modelled as a rational. -/
structure Transaction where
  post_date : String
  trans_date : String
  description : String
  amount : ℚ
  currency : String
deriving DecidableEq

/-- Mirrors `TokenUsage` of `src/types.ts`. -/
structure TokenUsage where
  promptTokens : Nat
  responseTokens : Nat
  totalTokens : Nat
deriving DecidableEq

/-- Mirrors `PdfParseResult` of `src/types.ts`; the optional TypeScript
fields (`transactions?`, `standardRawText?`, `tokenUsage?`) become
`Option`s, with `none` standing for an absent field. -/
structure PdfParseResult where
  metadata : ParsedMetadata
  pages : List ParsedPage
  transactions : Option (List Transaction)
  standardRawText : Option String
  tokenUsage : Option TokenUsage
deriving DecidableEq

/-- Mirrors the `ParseStatus` enum of `src/types.ts`. -/
inductive ParseStatus where
  | IDLE
  | PROCESSING
  | SUCCESS
  | ERROR
deriving DecidableEq

/-! ## Local extraction branch (`src/services/localPdfService.ts`) -/

/-- The sentinel string returned by `parsePdfLocal` when any step of the
local extraction throws (line 26 of `src/services/localPdfService.ts`). -/
def sentinelText : String :=
  "Error: Could not extract raw text from PDF for comparison."

/-- One page's text: the page's text items joined with a single space
(`textContent.items.map(item => item.str).join(' ')`, lines 16-18). -/
def pageTextOf (items : List String) : String :=
  String.intercalate " " items

/-- The block appended to `fullText` for page `i`:
``--- PAGE ${i} ---\n\n${pageText}\n\n`` (line 20). -/
def pageBlock (i : Nat) (items : List String) : String :=
  "--- PAGE " ++ toString i ++ " ---\n\n" ++ pageTextOf items ++ "\n\n"

/-- The `for` loop of lines 12-21: starting from page index `i` and
accumulator `acc` (the mutable `fullText`), append each remaining page's
block. -/
def extractLoop : Nat → String → List (List String) → String
  | _, acc, [] => acc
  | i, acc, items :: rest => extractLoop (i + 1) (acc ++ pageBlock i items) rest

/-- `parsePdfLocal` of `src/services/localPdfService.ts`.  The document is
modelled as the list of its pages' text-item lists; `Except.error e`
models the pdf.js pipeline (`file.arrayBuffer`, `getDocument`, `getPage`,
`getTextContent`) throwing at any point.  The `try`/`catch` converts any
such throw into `sentinelText`; on success it runs the page loop with
`fullText` initially empty and the page counter at 1. -/
def parsePdfLocal (attempt : Except String (List (List String))) : String :=
  match attempt with
  | Except.error _ => sentinelText
  | Except.ok pages => extractLoop 1 "" pages

/-- Declarative form of the loop's output: the blocks of pages numbered
from `i` upward, in document order. -/
def pageBlocksFrom (i : Nat) : List (List String) → List String
  | [] => []
  | items :: rest => pageBlock i items :: pageBlocksFrom (i + 1) rest

/-- Concatenation of a list of strings, in order. -/
def concatAll : List String → String
  | [] => ""
  | b :: rest => b ++ concatAll rest

/-! ## Remote extraction branch (Gemini service) -/

/-- The usage-accounting block of a Gemini response
(`response.usageMetadata`); each counter may be absent. -/
structure UsageMetadata where
  promptTokenCount : Option Nat
  candidatesTokenCount : Option Nat
  totalTokenCount : Option Nat
deriving DecidableEq

/-- The parts of a Gemini response the service reads: `response.text`
(possibly absent) and `response.usageMetadata` (possibly absent). -/
structure GenResponse where
  text : Option String
  usageMetadata : Option UsageMetadata
deriving DecidableEq

/-- JavaScript truthiness of `response.text` at line 112 of the service:
`!response.text` holds when the field is absent or the empty string. -/
def textFalsy (resp : GenResponse) : Bool :=
  match resp.text with
  | none => true
  | some s => s.isEmpty

/-- Models `x || 0` applied to a possibly-absent counter: an absent value
yields 0, and a present value `v` yields `v` (for `v = 0` both sides of
the JavaScript `||` give 0). -/
def jsOrZero (o : Option Nat) : Nat := o.getD 0

/-- Lines 119-124 of the service: build the `tokenUsage` record from the
response's usage metadata, defaulting each absent counter to zero via
`usage?.field || 0`. -/
def mkTokenUsage (usage : Option UsageMetadata) : TokenUsage :=
  { promptTokens := jsOrZero (usage.bind (fun u => u.promptTokenCount))
    responseTokens := jsOrZero (usage.bind (fun u => u.candidatesTokenCount))
    totalTokens := jsOrZero (usage.bind (fun u => u.totalTokenCount)) }

/-- The fixed message of the `Error` thrown at line 113 when the response
carries no text payload. -/
def noTextMsg : String := "No response text received from Gemini."

/-- `parsePdfWithGemini` of the Gemini service (lines 26-135).  `call`
models everything up to and including the API call: `Except.error e` is a
throw from `fileToGenerativePart` or `ai.models.generateContent`;
`Except.ok resp` is a delivered response.  `jsonParsed` models
`JSON.parse(response.text)`: `Except.error e` is a `SyntaxError` throw,
`Except.ok r` the parsed `PdfParseResult`.  The `catch` block (lines
131-134) logs and re-throws, so every failure propagates as
`Except.error`.  On success the parsed object is returned with its
`tokenUsage` field set from the response's usage metadata (lines
126-129). -/
def parsePdfWithGemini (call : Except String GenResponse)
    (jsonParsed : Except String PdfParseResult) : Except String PdfParseResult :=
  match call with
  | Except.error e => Except.error e
  | Except.ok resp =>
    if textFalsy resp then Except.error noTextMsg
    else
      match jsonParsed with
      | Except.error e => Except.error e
      | Except.ok jsonResult =>
        Except.ok { jsonResult with tokenUsage := some (mkTokenUsage resp.usageMetadata) }

/-! ## Orchestration (`src/App.tsx`) -/

/-- The pieces of App state written by `handleFileSelected`
(`status`, `result`, `errorMsg`). -/
structure AppState where
  status : ParseStatus
  result : Option PdfParseResult
  errorMsg : Option String
deriving DecidableEq

/-- The fallback error message of line 41 of `src/App.tsx`, used when the
thrown error's `message` is falsy. -/
def unknownErrorMsg : String := "An unknown error occurred while parsing the PDF."

/-- Lines 33-36 of `src/App.tsx`: `{ ...aiResult, standardRawText: rawText }` —
spread the remote result and set `standardRawText` to the local branch's
output. -/
def mergeResults (aiResult : PdfParseResult) (rawText : String) : PdfParseResult :=
  { aiResult with standardRawText := some rawText }

/-- The `try`/`catch` of `handleFileSelected` (lines 25-43 of
`src/App.tsx`), given the settled outcomes of the two parallel branches.
`parsePdfLocal` never rejects (it catches internally), so `Promise.all`
rejects exactly when the remote branch does; in that case `result` keeps
the `null` written at line 23 and the error message is stored (with the
fallback for a falsy message).  When the remote branch fulfils, the two
results are merged and status becomes SUCCESS. -/
def handleFileSelected (remote : Except String PdfParseResult)
    (localAttempt : Except String (List (List String))) : AppState :=
  match remote with
  | Except.ok aiResult =>
    { status := ParseStatus.SUCCESS
      result := some (mergeResults aiResult (parsePdfLocal localAttempt))
      errorMsg := none }
  | Except.error msg =>
    { status := ParseStatus.ERROR
      result := none
      errorMsg := some (if msg.isEmpty then unknownErrorMsg else msg) }

/-! ## Upload triggers (`FileUpload` component) -/

/-- The parts of a browser `File` the upload component reads: its name and
its declared MIME type. -/
structure JsFile where
  name : String
  type : String
deriving DecidableEq

/-- `handleDrop` (lines 155-169 of the `FileUpload` component), returning
`some f` exactly when `onFileSelected(f)` is invoked: nothing happens
while loading or when the drop carries no files; otherwise the first file
is accepted iff its MIME type is exactly `"application/pdf"`. -/
def handleDrop (isLoading : Bool) (files : List JsFile) : Option JsFile :=
  if isLoading then none
  else
    match files with
    | [] => none
    | f :: _ => if f.type = "application/pdf" then some f else none

/-- `handleFileChange` (lines 171-182), with the same acceptance logic as
`handleDrop` applied to the input element's file list. -/
def handleFileChange (isLoading : Bool) (files : List JsFile) : Option JsFile :=
  if isLoading then none
  else
    match files with
    | [] => none
    | f :: _ => if f.type = "application/pdf" then some f else none

/-! ## Viewer (`src/components/JsonViewer.tsx`) -/

/-- Line 16 of `src/components/JsonViewer.tsx`:
`data.transactions && data.transactions.length > 0` as a boolean (in the
source the `&&` yields a falsy `undefined` when the field is absent). -/
def hasTransactions (data : PdfParseResult) : Bool :=
  match data.transactions with
  | none => false
  | some ts => decide (0 < ts.length)

/-- The three tabs of the viewer. -/
inductive Tab where
  | aiJson
  | transactions
  | rawText
deriving DecidableEq

/-- The tab buttons rendered in the toolbar (lines 122-144): `AI JSON`,
then — only when `hasTransactions` — `Transactions`, then `Raw Text`. -/
def tabButtons (data : PdfParseResult) : List Tab :=
  [Tab.aiJson] ++ (if hasTransactions data then [Tab.transactions] else []) ++ [Tab.rawText]

/-- The transaction-count badge on the `Transactions` tab (line 135):
present exactly when the tab is rendered, showing
`data.transactions?.length`. -/
def transactionsBadge (data : PdfParseResult) : Option Nat :=
  if hasTransactions data then some ((data.transactions.getD []).length) else none

/-- `Math.abs`. -/
def mathAbs (q : ℚ) : ℚ := if q < 0 then -q else q

/-- `Number.prototype.toFixed(2)` for the non-negative exact values the
viewer passes to it (the source always applies it to `Math.abs(amount)`).
For `q = num/den` the integer nearest `100*q` (ties upward, as `toFixed`
rounds) is `⌊100*q + 1/2⌋ = (200*num + den).fdiv (2*den)`; the result is
printed with exactly two digits after the point. -/
def toFixed2 (q : ℚ) : String :=
  let cents : Int := (200 * q.num + q.den).fdiv (2 * q.den)
  let n : Nat := cents.toNat
  toString (n / 100) ++ "." ++
    (if n % 100 < 10 then "0" ++ toString (n % 100) else toString (n % 100))

/-- The sign marker of the amount cell (line 228 of
`src/components/JsonViewer.tsx`): `tx.amount > 0 ? '' : '+'`. -/
def amountCellSign (t : Transaction) : String :=
  if t.amount > 0 then "" else "+"

/-- The magnitude of the amount cell (line 228):
`Math.abs(tx.amount).toFixed(2)`. -/
def amountCellMagnitude (t : Transaction) : String :=
  toFixed2 (mathAbs t.amount)

/-- The credit colour highlight of the amount cell (line 227): the
emerald class is applied exactly when `tx.amount < 0`. -/
def amountCellHighlighted (t : Transaction) : Bool :=
  decide (t.amount < 0)

/-- The full visible text of the amount cell (line 228): sign marker,
space, magnitude, space, currency. -/
def amountCellText (t : Transaction) : String :=
  amountCellSign t ++ " " ++ amountCellMagnitude t ++ " " ++ t.currency

/-! ## CSV export (`handleDownload`, transactions branch, lines 51-64 of
`src/components/JsonViewer.tsx`) -/

/-- The CSV header columns (line 53). -/
def csvHeaders : List String :=
  ["Post Date", "Trans Date", "Description", "Amount", "Currency"]

/-- `description.replace(/"/g, '""')` on the character list of the
string: each double-quote character becomes two. -/
def escapeQuotesL : List Char → List Char
  | [] => []
  | c :: rest => if c = '"' then '"' :: '"' :: escapeQuotesL rest else c :: escapeQuotesL rest

/-- `description.replace(/"/g, '""')` as a string operation. -/
def escapeQuotes (s : String) : String := String.mk (escapeQuotesL s.data)

/-- The quoted description field of a CSV row (line 57):
`"${t.description.replace(/"/g, '""')}"`. -/
def csvDescField (s : String) : String := "\"" ++ escapeQuotes s ++ "\""

/-- JavaScript's stringification of a number inside `Array.join`.  The
amounts of interest are exact; an integral rational prints as its
integer, and the (unused in the verified properties) non-integral case
falls back to Lean's rational rendering. -/
def jsNumToString (q : ℚ) : String :=
  if q.den = 1 then toString q.num else toString q

/-- One CSV row's cells (lines 54-60): post date, trans date, quoted
escaped description, amount, currency. -/
def csvRow (t : Transaction) : List String :=
  [t.post_date, t.trans_date, csvDescField t.description, jsNumToString t.amount, t.currency]

/-- The downloaded CSV content (line 61):
`[headers.join(','), ...(rows?.map(r => r.join(',')) || [])].join('\n')`,
with `rows` built from `data.transactions?.map(...)` (an absent
transaction list contributes no rows, via the `|| []`). -/
def csvContent (transactions : Option (List Transaction)) : String :=
  String.intercalate "\n"
    (String.intercalate "," csvHeaders ::
      (transactions.getD []).map (fun t => String.intercalate "," (csvRow t)))

/-- Undo quote doubling: each `""` pair becomes a single `"`, scanning
left to right. -/
def undoubleQuotesL : List Char → List Char
  | [] => []
  | [c] => [c]
  | c1 :: c2 :: rest =>
    if c1 = '"' ∧ c2 = '"' then '"' :: undoubleQuotesL rest
    else c1 :: undoubleQuotesL (c2 :: rest)

/-- Parse one double-quoted CSV field back: require an opening and a
closing quote, and undouble the interior. -/
def parseCsvFieldL : List Char → Option (List Char)
  | [] => none
  | c :: rest =>
    if c = '"' ∧ rest ≠ [] ∧ rest.getLast? = some '"'
    then some (undoubleQuotesL rest.dropLast)
    else none

/-- Parse one double-quoted CSV field of a string back to the unescaped
string. -/
def parseCsvField (s : String) : Option String :=
  (parseCsvFieldL s.data).map String.mk

/-! ## Helper lemmas -/

/-- String concatenation acts as list concatenation on the underlying
character data. -/
theorem str_data_append (a b : String) : (a ++ b).data = a.data ++ b.data := by
  cases a; cases b; rfl

/-- The page loop equals the concatenation of the per-page blocks,
generalised over the starting index and accumulator. -/
theorem extractLoop_eq_concat (pages : List (List String)) :
    ∀ (i : Nat) (acc : String),
      extractLoop i acc pages = acc ++ concatAll (pageBlocksFrom i pages) := by
  induction pages with
  | nil => intro i acc; simp [extractLoop, pageBlocksFrom, concatAll]
  | cons items rest ih =>
    intro i acc
    simp only [extractLoop, pageBlocksFrom, concatAll, ih, String.append_assoc]

/-- Undoubling after a non-quote head commutes with the head. -/
theorem undouble_cons_escape (c : Char) (l : List Char) (hc : ¬ c = '"') :
    undoubleQuotesL (c :: escapeQuotesL l) = c :: undoubleQuotesL (escapeQuotesL l) := by
  cases l with
  | nil => simp [escapeQuotesL, undoubleQuotesL]
  | cons d l2 =>
    by_cases hd : d = '"' <;> simp [escapeQuotesL, hd, undoubleQuotesL, hc]

/-- Undoubling is a left inverse of quote escaping on character lists. -/
theorem undouble_escape (l : List Char) : undoubleQuotesL (escapeQuotesL l) = l := by
  induction l with
  | nil => rfl
  | cons c l ih =>
    by_cases hc : c = '"'
    · subst hc
      simp [escapeQuotesL, undoubleQuotesL, ih]
    · rw [show escapeQuotesL (c :: l) = c :: escapeQuotesL l by simp [escapeQuotesL, hc]]
      rw [undouble_cons_escape c l hc, ih]

/-- The character data of a quoted escaped description field. -/
theorem csvDescField_data (s : String) :
    (csvDescField s).data = '"' :: (escapeQuotesL s.data ++ ['"']) := by
  show (("\"" ++ escapeQuotes s) ++ "\"").data = _
  rw [str_data_append, str_data_append]
  rfl

/-! ## Claim theorems -/

/-- Claim C1: when the remote branch fulfils and the local branch
completes, the merged `PdfParseResult` keeps every field of the remote
result unchanged (`metadata`, `pages`, `transactions`, `tokenUsage`) and
its `standardRawText` equals the local branch's output string; the stored
result is exactly this merge and the status is SUCCESS. -/
theorem c1_merge_keeps_remote_fields (ai : PdfParseResult)
    (localAttempt : Except String (List (List String))) :
    (handleFileSelected (Except.ok ai) localAttempt).status = ParseStatus.SUCCESS ∧
    (handleFileSelected (Except.ok ai) localAttempt).result =
      some (mergeResults ai (parsePdfLocal localAttempt)) ∧
    (∀ (a : PdfParseResult) (raw : String),
      (mergeResults a raw).metadata = a.metadata ∧
      (mergeResults a raw).pages = a.pages ∧
      (mergeResults a raw).transactions = a.transactions ∧
      (mergeResults a raw).tokenUsage = a.tokenUsage ∧
      (mergeResults a raw).standardRawText = some raw) :=
  ⟨rfl, rfl, fun _ _ => ⟨rfl, rfl, rfl, rfl, rfl⟩⟩

/-- Claim C2: whenever the local branch's underlying extraction throws
(modelled by an `Except.error` input), `parsePdfLocal` returns the exact
sentinel string instead of propagating; with a fulfilled remote branch the
operation still reaches SUCCESS and the merged result's `standardRawText`
is that sentinel. -/
theorem c2_local_throw_degrades_to_sentinel (e : String) (ai : PdfParseResult) :
    parsePdfLocal (Except.error e) = "Error: Could not extract raw text from PDF for comparison." ∧
    (handleFileSelected (Except.ok ai) (Except.error e)).status = ParseStatus.SUCCESS ∧
    (handleFileSelected (Except.ok ai) (Except.error e)).result =
      some { ai with standardRawText := some sentinelText } :=
  ⟨rfl, rfl, rfl⟩

/-- Claim C3: whenever the remote branch fails — the call throws, the
response carries no text payload, or the text fails to parse as JSON —
`parsePdfWithGemini` propagates an error, and `handleFileSelected` ends in
status ERROR with the stored result `none` and the message recorded. -/
theorem c3_remote_failure_reaches_error
    (call : Except String GenResponse) (jsonParsed : Except String PdfParseResult)
    (localAttempt : Except String (List (List String)))
    (hfail : (∃ e, call = Except.error e) ∨
      (∃ resp, call = Except.ok resp ∧ textFalsy resp = true) ∨
      (∃ resp e, call = Except.ok resp ∧ textFalsy resp = false ∧
        jsonParsed = Except.error e)) :
    ∃ msg, parsePdfWithGemini call jsonParsed = Except.error msg ∧
      (handleFileSelected (parsePdfWithGemini call jsonParsed) localAttempt).status =
        ParseStatus.ERROR ∧
      (handleFileSelected (parsePdfWithGemini call jsonParsed) localAttempt).result = none ∧
      (handleFileSelected (parsePdfWithGemini call jsonParsed) localAttempt).errorMsg =
        some (if msg.isEmpty then unknownErrorMsg else msg) := by
  rcases hfail with ⟨e, he⟩ | ⟨resp, hr, ht⟩ | ⟨resp, e, hr, ht, hj⟩
  · subst he
    exact ⟨e, rfl, rfl, rfl, rfl⟩
  · subst hr
    refine ⟨noTextMsg, ?_, ?_, ?_, ?_⟩ <;> simp [parsePdfWithGemini, ht, handleFileSelected]
  · subst hr; subst hj
    refine ⟨e, ?_, ?_, ?_, ?_⟩ <;> simp [parsePdfWithGemini, ht, handleFileSelected]

/-- Witness for C3 at a concrete failing call. -/
theorem c3_remote_failure_reaches_error_witness :
    ∃ msg, parsePdfWithGemini (Except.error "network down") (Except.error "unused")
        = Except.error msg ∧
      (handleFileSelected
        (parsePdfWithGemini (Except.error "network down") (Except.error "unused"))
        (Except.ok [])).status = ParseStatus.ERROR ∧
      (handleFileSelected
        (parsePdfWithGemini (Except.error "network down") (Except.error "unused"))
        (Except.ok [])).result = none ∧
      (handleFileSelected
        (parsePdfWithGemini (Except.error "network down") (Except.error "unused"))
        (Except.ok [])).errorMsg =
        some (if msg.isEmpty then unknownErrorMsg else msg) :=
  c3_remote_failure_reaches_error (Except.error "network down") (Except.error "unused")
    (Except.ok []) (Or.inl ⟨"network down", rfl⟩)

/-- Claim C4: a selected or dropped first file whose declared MIME type is
not exactly `"application/pdf"` is rejected by both upload triggers:
neither `handleDrop` nor `handleFileChange` invokes `onFileSelected`, so
neither extraction branch runs. -/
theorem c4_nonpdf_never_selected (isLoading : Bool) (f : JsFile) (rest : List JsFile)
    (h : f.type ≠ "application/pdf") :
    handleDrop isLoading (f :: rest) = none ∧
    handleFileChange isLoading (f :: rest) = none := by
  cases isLoading <;> simp [handleDrop, handleFileChange, h]

/-- Witness for C4 at a concrete non-PDF file. -/
theorem c4_nonpdf_never_selected_witness :
    handleDrop false [⟨"notes.txt", "text/plain"⟩] = none ∧
    handleFileChange false [⟨"notes.txt", "text/plain"⟩] = none :=
  c4_nonpdf_never_selected false ⟨"notes.txt", "text/plain"⟩ [] (by decide)

/-- Claim C5: on a successfully loaded document the local branch's output
is the in-order concatenation, for pages 1 through the page count, of one
block per page; each block is the page marker, a blank line, the page's
text items joined by single spaces, and a blank line. -/
theorem c5_local_output_is_page_blocks (pages : List (List String)) :
    parsePdfLocal (Except.ok pages) = concatAll (pageBlocksFrom 1 pages) ∧
    (∀ (i : Nat) (items : List String),
      pageBlock i items =
        "--- PAGE " ++ toString i ++ " ---" ++ "\n\n" ++
          String.intercalate " " items ++ "\n\n") := by
  constructor
  · show extractLoop 1 "" pages = _
    rw [extractLoop_eq_concat pages 1 ""]
    cases h : concatAll (pageBlocksFrom 1 pages)
    rfl
  · intro i items
    simp [pageBlock, pageTextOf, String.append_assoc]

/-- Claim C6: the CSV export is the header row
`Post Date,Trans Date,Description,Amount,Currency` followed by one
comma-joined row per transaction in order, all joined with newlines; each
row's description is double-quoted with interior quotes doubled, and
parsing such a field back (strip the quotes, undouble) recovers the
original description exactly. -/
theorem c6_csv_layout_and_description_roundtrip :
    (∀ ts : List Transaction,
      csvContent (some ts) =
        String.intercalate "\n"
          ("Post Date,Trans Date,Description,Amount,Currency" ::
            ts.map (fun t => String.intercalate "," (csvRow t)))) ∧
    (∀ t : Transaction,
      csvRow t =
        [t.post_date, t.trans_date, csvDescField t.description,
          jsNumToString t.amount, t.currency]) ∧
    (∀ s : String, parseCsvField (csvDescField s) = some s) := by
  refine ⟨fun ts => rfl, fun t => rfl, fun s => ?_⟩
  show (parseCsvFieldL (csvDescField s).data).map String.mk = some s
  rw [csvDescField_data]
  simp [parseCsvFieldL, List.getLast?_concat, undouble_escape]

/-- Claim C7: on a successful remote parse the attached `tokenUsage`
defaults absent counters to zero: if the whole usage metadata block is
absent all three counters are 0, and any individually absent counter is
0. -/
theorem c7_absent_usage_defaults_to_zero (resp : GenResponse)
    (jsonResult : PdfParseResult) (htext : textFalsy resp = false) :
    parsePdfWithGemini (Except.ok resp) (Except.ok jsonResult) =
      Except.ok { jsonResult with tokenUsage := some (mkTokenUsage resp.usageMetadata) } ∧
    (resp.usageMetadata = none →
      mkTokenUsage resp.usageMetadata = ⟨0, 0, 0⟩) ∧
    (∀ um : UsageMetadata, resp.usageMetadata = some um →
      (um.promptTokenCount = none → (mkTokenUsage resp.usageMetadata).promptTokens = 0) ∧
      (um.candidatesTokenCount = none → (mkTokenUsage resp.usageMetadata).responseTokens = 0) ∧
      (um.totalTokenCount = none → (mkTokenUsage resp.usageMetadata).totalTokens = 0)) := by
  refine ⟨by simp [parsePdfWithGemini, htext], fun h => by simp [mkTokenUsage, h, jsOrZero],
    fun um hum => ⟨fun h1 => ?_, fun h2 => ?_, fun h3 => ?_⟩⟩ <;>
    simp_all [mkTokenUsage, jsOrZero]

/-- Witness for C7 at a concrete response with absent usage metadata. -/
theorem c7_absent_usage_defaults_to_zero_witness :
    parsePdfWithGemini (Except.ok ⟨some "{}", none⟩)
        (Except.ok ⟨⟨"", "", "", "", ""⟩, [], none, none, none⟩) =
      Except.ok { (⟨⟨"", "", "", "", ""⟩, [], none, none, none⟩ : PdfParseResult) with
        tokenUsage := some (mkTokenUsage (GenResponse.mk (some "{}") none).usageMetadata) } ∧
    ((GenResponse.mk (some "{}") none).usageMetadata = none →
      mkTokenUsage (GenResponse.mk (some "{}") none).usageMetadata = ⟨0, 0, 0⟩) ∧
    (∀ um : UsageMetadata, (GenResponse.mk (some "{}") none).usageMetadata = some um →
      (um.promptTokenCount = none →
        (mkTokenUsage (GenResponse.mk (some "{}") none).usageMetadata).promptTokens = 0) ∧
      (um.candidatesTokenCount = none →
        (mkTokenUsage (GenResponse.mk (some "{}") none).usageMetadata).responseTokens = 0) ∧
      (um.totalTokenCount = none →
        (mkTokenUsage (GenResponse.mk (some "{}") none).usageMetadata).totalTokens = 0)) :=
  c7_absent_usage_defaults_to_zero ⟨some "{}", none⟩
    ⟨⟨"", "", "", "", ""⟩, [], none, none, none⟩ (by decide)

/-- Claim C8: on the two-transaction input with amounts 1500.00 LKR and
-200.00 LKR, the table renders the first as a debit — empty sign marker
and magnitude `1500.00` — and the second as a credit — `+` sign marker and
magnitude `200.00` (always the absolute value to two decimals). -/
theorem c8_debit_credit_rendering :
    amountCellSign ⟨"2026-01-02", "2026-01-02", "POS PURCHASE", 1500, "LKR"⟩ = "" ∧
    amountCellMagnitude ⟨"2026-01-02", "2026-01-02", "POS PURCHASE", 1500, "LKR"⟩ = "1500.00" ∧
    amountCellSign ⟨"2026-01-05", "2026-01-05", "PAYMENT RECEIVED", -200, "LKR"⟩ = "+" ∧
    amountCellMagnitude ⟨"2026-01-05", "2026-01-05", "PAYMENT RECEIVED", -200, "LKR"⟩ =
      "200.00" := by
  refine ⟨?_, ?_, ?_, ?_⟩ <;> decide

/-- Claim C9: a transaction whose amount is exactly 0 renders in the
credit format — `+` sign marker (the debit test is the strict
`amount > 0`) with magnitude `0.00` — but without the credit colour
highlight (which needs `amount < 0`). -/
theorem c9_zero_amount_renders_plus_uncoloured (t : Transaction) (h : t.amount = 0) :
    amountCellSign t = "+" ∧ amountCellMagnitude t = "0.00" ∧
    amountCellHighlighted t = false := by
  unfold amountCellSign amountCellMagnitude amountCellHighlighted
  rw [h]
  refine ⟨by decide, by decide, by decide⟩

/-- Witness for C9 at a concrete zero-amount transaction. -/
theorem c9_zero_amount_renders_plus_uncoloured_witness :
    amountCellSign ⟨"2026-01-02", "2026-01-02", "ADJUSTMENT", 0, "LKR"⟩ = "+" ∧
    amountCellMagnitude ⟨"2026-01-02", "2026-01-02", "ADJUSTMENT", 0, "LKR"⟩ = "0.00" ∧
    amountCellHighlighted ⟨"2026-01-02", "2026-01-02", "ADJUSTMENT", 0, "LKR"⟩ = false :=
  c9_zero_amount_renders_plus_uncoloured ⟨"2026-01-02", "2026-01-02", "ADJUSTMENT", 0, "LKR"⟩ rfl

/-- Claim C10: the viewer's `hasTransactions` is false exactly when the
transaction list is absent or empty; the `Transactions` tab button is
rendered exactly when `hasTransactions` holds; and on a present non-empty
list the tab appears with its count badge equal to the list's length. -/
theorem c10_transactions_tab_iff_nonempty (d : PdfParseResult) :
    (hasTransactions d = false ↔ (d.transactions = none ∨ d.transactions = some [])) ∧
    (Tab.transactions ∈ tabButtons d ↔ hasTransactions d = true) ∧
    (hasTransactions d = false → transactionsBadge d = none) ∧
    (∀ ts : List Transaction, d.transactions = some ts → ts ≠ [] →
      transactionsBadge d = some ts.length ∧ Tab.transactions ∈ tabButtons d) := by
  refine ⟨?_, ?_, ?_, ?_⟩
  · cases hts : d.transactions with
    | none => simp [hasTransactions, hts]
    | some ts =>
      simp [hasTransactions, hts, Nat.pos_iff_ne_zero, List.length_eq_zero]
  · cases hb : hasTransactions d <;> simp [tabButtons, hb]
  · intro h; simp [transactionsBadge, h]
  · intro ts hts hne
    have hpos : 0 < ts.length := List.length_pos.mpr hne
    have hb : hasTransactions d = true := by simp [hasTransactions, hts, hpos]
    constructor
    · simp [transactionsBadge, hb, hts]
    · simp [tabButtons, hb]

/-- Witness for C10 at a concrete one-transaction result. -/
theorem c10_transactions_tab_iff_nonempty_witness :
    transactionsBadge
        ⟨⟨"", "", "", "", ""⟩, [],
          some [⟨"2026-01-02", "2026-01-02", "POS PURCHASE", 1500, "LKR"⟩], none, none⟩ =
      some 1 ∧
    Tab.transactions ∈ tabButtons
        ⟨⟨"", "", "", "", ""⟩, [],
          some [⟨"2026-01-02", "2026-01-02", "POS PURCHASE", 1500, "LKR"⟩], none, none⟩ :=
  (c10_transactions_tab_iff_nonempty
      ⟨⟨"", "", "", "", ""⟩, [],
        some [⟨"2026-01-02", "2026-01-02", "POS PURCHASE", 1500, "LKR"⟩], none, none⟩).2.2.2
    [⟨"2026-01-02", "2026-01-02", "POS PURCHASE", 1500, "LKR"⟩] rfl (by decide)

end PdfToJson
